import Mathlib

/-!
Verification development for the Video-Duration-Calculator repository.

The repository resolves the playback duration of a video file through a
layered strategy: a direct binary MP4 box-traversal parser, a playback-probe
tier, and a remote (AI) fallback.  The repository ships several variants of
each module; this file embeds each variant faithfully:

* namespace MP4A — the v3.2 box-traversal parser (src/unnamed/part_000),
  `getMp4DurationInstantly` with granular byte-range reads, outer attempt
  ceiling 100 and inner (moov) attempt ceiling 50;
* namespace MP4B — the v3 precision parser (src/unnamed/part_001),
  `parseBoxes` over a start window of 256 KiB and an end window of 512 KiB,
  preferring mdhd over an mvhd backup;
* namespace MP4C — the App.tsx parser variant (outer ceiling 50, inner 100,
  mvhd accepted only when timescale > 0 and duration > 0);
* namespaces VP1 / VP2 — the two `getVideoDuration` strategy variants
  (src/unnamed/part_001 lines 92-179 and src/unnamed/part_002), modelled over
  an abstract probe-collaborator signal;
* namespace AppMain — the queue-controller pieces of src/App.tsx
  (`processVideo` in-flight guard and the AI-fallback outcome).

JavaScript numbers are modelled by `JsVal`: a rational, positive infinity, or
NaN.  Division of two natural numbers follows IEEE semantics at this
granularity: n / 0 = Infinity for n > 0 and 0 / 0 = NaN; otherwise the exact
rational (the concrete values appearing in the claims, 30, 45 and 9.98, are
exactly representable IEEE doubles, so the rational model agrees with the
source on every comparison performed).

Byte sources (the `File` object and the `DataView`s cut from it) are modelled
by `ByteSrc`: a total byte function together with a length.  Reads that the
source performs only after an explicit byteLength check use the total
accessors `u8v`/`u32v`/`u64v`; reads that the source performs without a check
(the mvhd/mdhd field reads) use the checked accessors `u8?`/`u32?`/`u64?`,
whose `none` models the RangeError a real DataView throws, which the
enclosing code turns into the failure of the binary tier.

The unbounded `while` loops of the sources are embedded with an explicit
fuel argument; where the source itself carries an attempt counter
(MP4A, MP4C) the fuel is exactly that counter counted down, and where it
does not (MP4B's parseBoxes) the fuel is one more than the size of the
scanned range, which exceeds the longest possible chain of box steps because
every step advances the offset by at least one byte.
-/

set_option maxRecDepth 4096

namespace VDC

/-- A JavaScript number as used by the duration pipeline: a finite rational,
positive infinity, or NaN. -/
inductive JsVal where
  | num : ℚ → JsVal
  | inf : JsVal
  | nan : JsVal
deriving DecidableEq

/-- JavaScript division `a / b` of two nonnegative integers: exact rational
when `b ≠ 0`, `Infinity` for `a / 0` with `a > 0`, and `NaN` for `0 / 0`.
`mkRat a b` equals `(a : ℚ) / (b : ℚ)` (see `jsDiv_eq_div`); it is used here
because it evaluates inside the kernel. -/
def jsDiv (a b : Nat) : JsVal :=
  if b = 0 then (if a = 0 then JsVal.nan else JsVal.inf) else JsVal.num (mkRat a b)

/-- The JavaScript comparison `d > 0` (false on NaN, true on Infinity). -/
def JsVal.gtZero : JsVal → Bool
  | JsVal.num q => decide (0 < q)
  | JsVal.inf => true
  | JsVal.nan => false

/-- JavaScript truthiness of a number (`0` and `NaN` are falsy). -/
def JsVal.truthy : JsVal → Bool
  | JsVal.num q => decide (q ≠ 0)
  | JsVal.inf => true
  | JsVal.nan => false

/-- A random-access byte source of known length: models both the `File`
handle and the `ArrayBuffer`/`DataView` chunks sliced from it.  `data` is a
total function; all byte values are taken mod 256 by the accessors. -/
structure ByteSrc where
  data : Nat → Nat
  size : Nat

/-- `file.slice(offset, offset + len)` followed by `FileReader`: a view of at
most `len` bytes starting at `offset`, clamped to the end of the source
(JS `Blob.slice` clamps; the resulting buffer's `byteLength` is the clamped
length). -/
def ByteSrc.read (s : ByteSrc) (offset len : Nat) : ByteSrc :=
  ⟨fun i => s.data (offset + i), min len (s.size - offset)⟩

/-- Unchecked byte accessor (used only at offsets the source has already
bounds-checked). -/
def ByteSrc.u8v (v : ByteSrc) (i : Nat) : Nat := v.data i % 256

/-- Unchecked big-endian 32-bit read, `DataView.getUint32`. -/
def ByteSrc.u32v (v : ByteSrc) (i : Nat) : Nat :=
  v.u8v i * 16777216 + v.u8v (i + 1) * 65536 + v.u8v (i + 2) * 256 + v.u8v (i + 3)

/-- Unchecked big-endian 64-bit read, `Number(DataView.getBigUint64)`. -/
def ByteSrc.u64v (v : ByteSrc) (i : Nat) : Nat :=
  v.u32v i * 4294967296 + v.u32v (i + 4)

/-- Checked `DataView.getUint8`: `none` models the RangeError thrown on an
out-of-range read. -/
def ByteSrc.u8? (v : ByteSrc) (i : Nat) : Option Nat :=
  if i + 1 ≤ v.size then some (v.u8v i) else none

/-- Checked `DataView.getUint32`. -/
def ByteSrc.u32? (v : ByteSrc) (i : Nat) : Option Nat :=
  if i + 4 ≤ v.size then some (v.u32v i) else none

/-- Checked `Number(DataView.getBigUint64)`. -/
def ByteSrc.u64? (v : ByteSrc) (i : Nat) : Option Nat :=
  if i + 8 ≤ v.size then some (v.u64v i) else none

/-- Build a byte source from an explicit byte list. -/
def ofList (l : List Nat) : ByteSrc := ⟨fun i => l.getD i 0, l.length⟩

/-- The four-character tag `moov` as a big-endian 32-bit number. -/
def moovTag : Nat := 0x6d6f6f76
/-- The tag `mvhd`. -/
def mvhdTag : Nat := 0x6d766864
/-- The tag `trak`. -/
def trakTag : Nat := 0x7472616b
/-- The tag `mdia`. -/
def mdiaTag : Nat := 0x6d646961
/-- The tag `mdhd`. -/
def mdhdTag : Nat := 0x6d646864

namespace MP4A

/-- The inner `while (subOffset < moovEnd && subAttempts < 50)` loop of the
v3.2 parser (src/unnamed/part_000 lines 47-78), scanning the children of the
moov box for an mvhd.  Arguments after the file and `moovEnd`: remaining
attempts (the source counts `subAttempts` up to 50; here the same bound is
counted down), current `subOffset`, and the number of 8-byte header reads
performed so far.  Returns the parsed duration (`some` exactly when the
source executes `return duration / timescale`) and the updated read count;
`none` covers the `break`/loop-exit paths and the RangeError paths alike,
all of which end in the enclosing function throwing. -/
def moovScan (file : ByteSrc) (moovEnd : Nat) : Nat → Nat → Nat → Option JsVal × Nat
  | 0, _, reads => (none, reads)
  | fuel + 1, subOffset, reads =>
    if subOffset < moovEnd then
      let hdr := file.read subOffset 8
      if hdr.size < 8 then (none, reads + 1)
      else
        let subSize := hdr.u32v 0
        let subType := hdr.u32v 4
        if subType = mvhdTag then
          let c := file.read (subOffset + 8) (min subSize 128)
          match c.u8? 0 with
          | none => (none, reads + 1)
          | some version =>
            let tsOff := if version = 1 then 20 else 12
            match c.u32? tsOff,
                (if version = 1 then c.u64? (tsOff + 4) else c.u32? (tsOff + 4)) with
            | some timescale, some duration =>
              if 0 < timescale then (some (jsDiv duration timescale), reads + 1)
              else if subSize = 0 then (none, reads + 1)
              else moovScan file moovEnd fuel (subOffset + subSize) (reads + 1)
            | _, _ => (none, reads + 1)
        else if subSize = 0 then (none, reads + 1)
        else moovScan file moovEnd fuel (subOffset + subSize) (reads + 1)
    else (none, reads)

/-- The outer `while (offset < fileSize && attempts < MAX_BOX_ATTEMPTS)` loop
of the v3.2 parser (src/unnamed/part_000 lines 20-84), with
`MAX_BOX_ATTEMPTS = 100` counted down as fuel.  Arguments: fuel, current
`offset`, outer header reads so far, inner header reads so far.  The first
component is `some` exactly on the source's successful `return`; `none`
covers every `break`, the loop running out, and the thrown
"Metadata scan incomplete". -/
def boxScan (file : ByteSrc) : Nat → Nat → Nat → Nat → Option JsVal × Nat × Nat
  | 0, _, oReads, iReads => (none, oReads, iReads)
  | fuel + 1, offset, oReads, iReads =>
    if offset < file.size then
      let hdr := file.read offset 8
      if hdr.size < 8 then (none, oReads + 1, iReads)
      else
        let rawSize := hdr.u32v 0
        let boxType := hdr.u32v 4
        let sized : Option (Nat × Nat) :=
          if rawSize = 1 then
            let ls := file.read (offset + 8) 8
            if ls.size < 8 then none else some (ls.u64v 0, 16)
          else some (rawSize, 8)
        match sized with
        | none => (none, oReads + 1, iReads)
        | some (boxSize, headerSize) =>
          if boxType = moovTag then
            match moovScan file (offset + boxSize) 50 (offset + headerSize) iReads with
            | (some v, iReads1) => (some v, oReads + 1, iReads1)
            | (none, iReads1) => (none, oReads + 1, iReads1)
          else if boxSize = 0 then (none, oReads + 1, iReads)
          else boxScan file fuel (offset + boxSize) (oReads + 1) iReads
    else (none, oReads, iReads)

/-- `getMp4DurationInstantly` of src/unnamed/part_000, instrumented with the
number of outer and inner box-header reads performed. -/
def getMp4DurationInstantly (file : ByteSrc) : Option JsVal × Nat × Nat :=
  boxScan file 100 0 0 0

/-- The result of the v3.2 parser alone: `some` on a successful return,
`none` when it throws. -/
def parse (file : ByteSrc) : Option JsVal :=
  (getMp4DurationInstantly file).1

end MP4A

namespace MP4B

/-- The recursive box walk `parseBoxes` of the v3 precision parser
(src/unnamed/part_001 lines 18-72), embedded with an explicit fuel.  The
source loop has no attempt counter; every iteration advances `offset` by
`boxSize ≥ 1` and every drill-in shrinks the scanned range by at least the
8-byte header, so any chain of steps inside a range of `n` bytes is shorter
than `n` and a fuel of one more than the range size (supplied by
`parseBoxes`) is never exhausted on a reachable state.  `backup` carries the
`movieDuration`/`movieTimescale` pair recorded from the first mvhd seen at
this level (`none` models the initial value -1).  The result is
`Except.error ()` when a DataView read throws, `Except.ok (some (d, ts))` on
`return { duration, timescale }`, and `Except.ok none` on `return null`. -/
def parseBoxesGo (view : ByteSrc) :
    Nat → Nat → Nat → Option (Nat × Nat) → Except Unit (Option (Nat × Nat))
  | 0, _, _, backup => Except.ok backup
  | fuel + 1, offset, endOffset, backup =>
    -- while (offset < endOffset - 8), i.e. offset + 8 < endOffset
    if offset + 8 < endOffset then
      match view.u32? offset, view.u32? (offset + 4) with
      | some boxSize, some boxType =>
        if boxSize = 0 then Except.ok backup
        else if boxType = moovTag ∨ boxType = trakTag ∨ boxType = mdiaTag then
          match parseBoxesGo view fuel (offset + 8) (min (offset + boxSize) endOffset) none with
          | Except.error e => Except.error e
          | Except.ok (some r) => Except.ok (some r)
          | Except.ok none => parseBoxesGo view fuel (offset + boxSize) endOffset backup
        else if boxType = mdhdTag then
          match view.u8? (offset + 8) with
          | none => Except.error ()
          | some version =>
            let tsOff := if version = 1 then 20 else 12
            match view.u32? (offset + 8 + tsOff),
                (if version = 1 then view.u64? (offset + 8 + tsOff + 4)
                 else view.u32? (offset + 8 + tsOff + 4)) with
            | some timescale, some duration =>
              if 0 < timescale ∧ 0 < duration then Except.ok (some (duration, timescale))
              else parseBoxesGo view fuel (offset + boxSize) endOffset backup
            | _, _ => Except.error ()
        else if boxType = mvhdTag ∧ backup = none then
          match view.u8? (offset + 8) with
          | none => Except.error ()
          | some version =>
            let tsOff := if version = 1 then 20 else 12
            match view.u32? (offset + 8 + tsOff),
                (if version = 1 then view.u64? (offset + 8 + tsOff + 4)
                 else view.u32? (offset + 8 + tsOff + 4)) with
            | some timescale, some duration =>
              parseBoxesGo view fuel (offset + boxSize) endOffset (some (duration, timescale))
            | _, _ => Except.error ()
        else parseBoxesGo view fuel (offset + boxSize) endOffset backup
      | _, _ => Except.error ()
    else Except.ok backup

/-- `parseBoxes(view, startOffset, endOffset)` of src/unnamed/part_001. -/
def parseBoxes (view : ByteSrc) (startOffset endOffset : Nat) :
    Except Unit (Option (Nat × Nat)) :=
  parseBoxesGo view (endOffset - startOffset + 1) startOffset endOffset none

/-- Step 1 of the precision parser: parse the first 256 KiB
(src/unnamed/part_001 lines 74-77). -/
def startScan (file : ByteSrc) : Except Unit (Option (Nat × Nat)) :=
  let startView := file.read 0 (min file.size 262144)
  parseBoxes startView 0 startView.size

/-- Step 2 of the precision parser: parse the last 512 KiB
(src/unnamed/part_001 lines 79-83). -/
def endScan (file : ByteSrc) : Except Unit (Option (Nat × Nat)) :=
  let endSize := min file.size 524288
  let endView := file.read (file.size - endSize) endSize
  parseBoxes endView 0 endView.size

/-- `getMp4DurationInstantly` of src/unnamed/part_001: scan the start
window; only when that scan returns null, scan the end window.  A thrown
DataView error is caught by the source's try/catch and, like a fully
exhausted scan, ends in the thrown "Duration header not found" (`none`). -/
def getMp4DurationInstantly (file : ByteSrc) : Option JsVal :=
  match startScan file with
  | Except.ok (some r) => some (jsDiv r.1 r.2)
  | Except.ok none =>
    match endScan file with
    | Except.ok (some r) => some (jsDiv r.1 r.2)
    | Except.ok none => none
    | Except.error _ => none
  | Except.error _ => none

end MP4B

namespace MP4C

/-- The inner moov loop of the App.tsx parser variant (src/App.tsx lines
510-546): like MP4A's but with attempt ceiling 100 and an mvhd accepted only
when both `timescale > 0` and `duration > 0`. -/
def moovScan (file : ByteSrc) (moovEnd : Nat) : Nat → Nat → Option JsVal
  | 0, _ => none
  | fuel + 1, subOffset =>
    if subOffset < moovEnd then
      let hdr := file.read subOffset 8
      if hdr.size < 8 then none
      else
        let subSize := hdr.u32v 0
        let subType := hdr.u32v 4
        if subType = mvhdTag then
          let c := file.read (subOffset + 8) (min subSize 128)
          match c.u8? 0 with
          | none => none
          | some version =>
            let tsOff := if version = 1 then 20 else 12
            match c.u32? tsOff,
                (if version = 1 then c.u64? (tsOff + 4) else c.u32? (tsOff + 4)) with
            | some timescale, some duration =>
              if 0 < timescale ∧ 0 < duration then some (jsDiv duration timescale)
              else if subSize = 0 then none
              else moovScan file moovEnd fuel (subOffset + subSize)
            | _, _ => none
        else if subSize = 0 then none
        else moovScan file moovEnd fuel (subOffset + subSize)
    else none

/-- The outer loop of the App.tsx parser variant, `MAX_BOX_ATTEMPTS = 50`
(src/App.tsx lines 478-553). -/
def boxScan (file : ByteSrc) : Nat → Nat → Option JsVal
  | 0, _ => none
  | fuel + 1, offset =>
    if offset < file.size then
      let hdr := file.read offset 8
      if hdr.size < 8 then none
      else
        let rawSize := hdr.u32v 0
        let boxType := hdr.u32v 4
        let sized : Option (Nat × Nat) :=
          if rawSize = 1 then
            let ls := file.read (offset + 8) 8
            if ls.size < 8 then none else some (ls.u64v 0, 16)
          else some (rawSize, 8)
        match sized with
        | none => none
        | some (boxSize, headerSize) =>
          if boxType = moovTag then
            moovScan file (offset + boxSize) 100 (offset + headerSize)
          else if boxSize = 0 then none
          else boxScan file fuel (offset + boxSize)
    else none

/-- `getMp4DurationInstantly` of the App.tsx variant: `some` on a successful
return, `none` when it throws "Metadata scan incomplete" (its internal
try/catch also funnels DataView errors into that throw). -/
def getMp4DurationInstantly (file : ByteSrc) : Option JsVal :=
  boxScan file 50 0

end MP4C

/-- Which tier produced a duration (the DurationResult provenance). -/
inductive Source where
  | binary : Source
  | probe : Source
deriving DecidableEq

/-- The behaviour of the external playback-probe collaborator during one
probe-tier run, as observed through the media element's event handlers:
either no event fires before the safety timeout (`silent`), the element
fires `error` (`err`), or `loadedmetadata` fires reporting duration `d0`
(`meta`), after which the strategy issues a seek; `seeked = some (d1, c1)`
means the seek completes before the timeout with the element then reporting
duration `d1` and currentTime `c1`, and `seeked = none` means it does not. -/
inductive ProbeSignal where
  | silent : ProbeSignal
  | err : ProbeSignal
  | meta : JsVal → Option (JsVal × JsVal) → ProbeSignal

namespace VP1

/-- The probe tier of the first strategy variant (src/unnamed/part_001 lines
161-175): resolve the metadata duration when it is truthy, not NaN and not
Infinity; reject on error, invalid duration, or the 10 s timeout.  The
seeked component of the signal is ignored: this variant performs no seek. -/
def probeTier : ProbeSignal → Option JsVal
  | ProbeSignal.silent => none
  | ProbeSignal.err => none
  | ProbeSignal.meta d0 _ =>
    if d0.truthy ∧ d0 ≠ JsVal.nan ∧ d0 ≠ JsVal.inf then some d0 else none

/-- `getVideoDuration` of src/unnamed/part_001 (lines 92-179), for a File
source: the binary tier's value is returned when positive; any other binary
outcome (throw, or a nonpositive value) falls through to the probe tier.
The imported parser is a parameter because the variant imports it from a
module whose concrete file is ambiguous in this repository. -/
def getVideoDuration (mp4 : ByteSrc → Option JsVal) (file : ByteSrc) (sig : ProbeSignal) :
    Option (JsVal × Source) :=
  match mp4 file with
  | some duration =>
    if duration.gtZero then some (duration, Source.binary)
    else (probeTier sig).map (fun d => (d, Source.probe))
  | none => (probeTier sig).map (fun d => (d, Source.probe))

end VP1

namespace VP2

/-- The probe tier of the second strategy variant (src/unnamed/part_002
lines 61-94).  On `loadedmetadata` the strategy seeks to the reported end
(or far past it); when the seek completes, `finalDuration` is the post-seek
duration (or currentTime if that duration is Infinity) and is resolved when
positive.  When nothing has settled after 5 s, the timeout resolves the
element's current duration if positive and finite, else rejects.  The
element's duration at the timeout is the last reported one: `d1` when the
seek completed, `d0` when it did not. -/
def probeTier : ProbeSignal → Option JsVal
  | ProbeSignal.silent => none
  | ProbeSignal.err => none
  | ProbeSignal.meta d0 seeked =>
    match seeked with
    | some (d1, c1) =>
      let finalDuration := if d1 = JsVal.inf then c1 else d1
      if finalDuration.gtZero then some finalDuration
      else if d1.gtZero ∧ d1 ≠ JsVal.inf then some d1
      else none
    | none => if d0.gtZero ∧ d0 ≠ JsVal.inf then some d0 else none

/-- `getVideoDuration` of src/unnamed/part_002, for a File source: the
binary tier's value is returned when positive, otherwise the probe tier
(with its seek-to-end correction) decides. -/
def getVideoDuration (mp4 : ByteSrc → Option JsVal) (file : ByteSrc) (sig : ProbeSignal) :
    Option (JsVal × Source) :=
  match mp4 file with
  | some instant =>
    if instant.gtZero then some (instant, Source.binary)
    else (probeTier sig).map (fun d => (d, Source.probe))
  | none => (probeTier sig).map (fun d => (d, Source.probe))

end VP2

/-- One observable event during a probe-tier run of src/unnamed/part_002:
the element fires `loadedmetadata` with duration `d` (the handler only
issues a seek), the seek completes (`seeked d c`: post-seek duration `d`,
currentTime `c`), the element fires `error`, or the 5 s safety timeout fires
while the element reports duration `d`. -/
inductive PEvent where
  | loadedmetadata : JsVal → PEvent
  | seeked : JsVal → JsVal → PEvent
  | error : PEvent
  | timeout : JsVal → PEvent

/-- The settlement state of one probe-tier run of src/unnamed/part_002:
the `isSettled` flag, the number of times `cleanup()` has executed, and the
promise outcome (`none` unsettled, `some (some d)` resolved with `d`,
`some none` rejected). -/
structure PState where
  settled : Bool
  cleanups : Nat
  outcome : Option (Option JsVal)
deriving DecidableEq

namespace VP2

/-- The initial settlement state. -/
def initState : PState := ⟨false, 0, none⟩

/-- `safeResolve` of src/unnamed/part_002 (lines 42-47): guarded by
`isSettled`; when it fires it runs `cleanup()` exactly once and resolves the
promise (a promise ignores a second settlement). -/
def safeResolve (s : PState) (d : JsVal) : PState :=
  if s.settled then s
  else { settled := true, cleanups := s.cleanups + 1,
         outcome := if s.outcome = none then some (some d) else s.outcome }

/-- A plain `reject(...)` call of src/unnamed/part_002 (lines 81 and 91):
it neither sets `isSettled` nor runs `cleanup()`; the promise records the
rejection only if still unsettled. -/
def rawReject (s : PState) : PState :=
  if s.outcome = none then { s with outcome := some none } else s

/-- The event handlers of the src/unnamed/part_002 probe tier (lines
61-94): `loadedmetadata` only seeks; `seeked` resolves the post-seek
duration (or currentTime when that duration is Infinity) when positive;
`error` performs a plain reject; the timeout resolves a positive finite
duration and otherwise performs a plain reject. -/
def handle (s : PState) : PEvent → PState
  | PEvent.loadedmetadata _ => s
  | PEvent.seeked d c =>
    let finalDuration := if d = JsVal.inf then c else d
    if finalDuration.gtZero then safeResolve s finalDuration else s
  | PEvent.error => rawReject s
  | PEvent.timeout d =>
    if s.settled then s
    else if d.gtZero ∧ d ≠ JsVal.inf then safeResolve s d
    else rawReject s

/-- A full probe-tier run of src/unnamed/part_002 over an event sequence. -/
def run (events : List PEvent) : PState :=
  events.foldl handle initState

end VP2

namespace AppMain

/-- The in-flight membership guard at the top of `processVideo`
(src/App.tsx lines 338-340): `processingRef.current.has(item.id)` makes a
second request a no-op; otherwise the id is added before dispatch.  Returns
whether work is dispatched together with the new in-flight set. -/
def processVideoGuard (inFlight : List String) (id : String) : Bool × List String :=
  if id ∈ inFlight then (false, inFlight) else (true, id :: inFlight)

/-- The `finally` block of `processVideo` (src/App.tsx lines 371-373):
the id is removed from the in-flight set when resolution completes. -/
def processVideoRelease (inFlight : List String) (id : String) : List String :=
  inFlight.erase id

/-- Item lifecycle status (src/unnamed/part_002 `VideoMetadata.status`). -/
inductive Status where
  | pending : Status
  | processing : Status
  | completed : Status
  | error : Status
deriving DecidableEq

/-- The remote (AI) fallback outcome of `processVideo` (src/App.tsx lines
352-370): the remote call either throws (`Except.error`), or returns a
response whose `Number(response.text)` is a number (`Except.ok (some d)`) or
NaN (`Except.ok none`, covering non-numeric and absent responses).  The item
update performed is `duration: !isNaN(duration) ? duration : 0` with status
`completed` when the call returns, and status `error` (duration left at its
default 0) when it throws.  The source makes exactly one remote call per
`processVideo` invocation; there is no retry path. -/
def aiFallback : Except Unit (Option ℚ) → Status × ℚ
  | Except.ok (some d) => (Status.completed, d)
  | Except.ok none => (Status.completed, 0)
  | Except.error _ => (Status.error, 0)

end AppMain

/-- A 36-byte file: a moov box at offset 0 (size 36) wrapping a version-0
mvhd (size 28) with timescale 600 (payload offset 12) and duration 18000
(payload offset 16), and no nested track data. -/
def file1 : ByteSrc := ofList
  [0, 0, 0, 36, 0x6d, 0x6f, 0x6f, 0x76,
   0, 0, 0, 28, 0x6d, 0x76, 0x68, 0x64,
   0, 0, 0, 0,
   0, 0, 0, 0,
   0, 0, 0, 0,
   0, 0, 2, 88,
   0, 0, 70, 80]

/-- The same bytes as `file1` except that the moov box declares size 0: its
actual contents (the same valid mvhd) still occupy the rest of the file. -/
def sizeZeroMoovFile : ByteSrc := ofList
  [0, 0, 0, 0, 0x6d, 0x6f, 0x6f, 0x76,
   0, 0, 0, 28, 0x6d, 0x76, 0x68, 0x64,
   0, 0, 0, 0,
   0, 0, 0, 0,
   0, 0, 0, 0,
   0, 0, 2, 88,
   0, 0, 70, 80]

/-- A moov wrapping a version-0 mvhd whose timescale field is 0 and whose
duration field is 5. -/
def zeroTsFile : ByteSrc := ofList
  [0, 0, 0, 36, 0x6d, 0x6f, 0x6f, 0x76,
   0, 0, 0, 28, 0x6d, 0x76, 0x68, 0x64,
   0, 0, 0, 0,
   0, 0, 0, 0,
   0, 0, 0, 0,
   0, 0, 0, 0,
   0, 0, 0, 5]

/-- A moov wrapping a version-0 mvhd with timescale 600 (valid per the
spec's `timescale > 0` condition) but duration 0 ticks. -/
def zeroTickFile : ByteSrc := ofList
  [0, 0, 0, 36, 0x6d, 0x6f, 0x6f, 0x76,
   0, 0, 0, 28, 0x6d, 0x76, 0x68, 0x64,
   0, 0, 0, 0,
   0, 0, 0, 0,
   0, 0, 0, 0,
   0, 0, 2, 88,
   0, 0, 0, 0]

/-- The header of a 262144-byte `free` box. -/
def freeHdr : List Nat := [0, 4, 0, 0, 0x66, 0x72, 0x65, 0x65]

/-- A moov box (size 48) wrapping a version-1 mvhd (size 40) with timescale
1000 and 64-bit duration 45000. -/
def moovBytesV1 : List Nat :=
  [0, 0, 0, 48, 0x6d, 0x6f, 0x6f, 0x76,
   0, 0, 0, 40, 0x6d, 0x76, 0x68, 0x64,
   1, 0, 0, 0,
   0, 0, 0, 0, 0, 0, 0, 0,
   0, 0, 0, 0, 0, 0, 0, 0,
   0, 0, 3, 232,
   0, 0, 0, 0, 0, 0, 175, 200]

/-- A 262192-byte file: a 262144-byte `free` box followed by the
version-1 moov of `moovBytesV1`.  The moov starts at offset 262144, so it
lies outside the first 256 KiB start window and entirely inside the last
512 KiB end window. -/
def bigFile : ByteSrc :=
  ⟨fun i =>
    if i < 8 then freeHdr.getD i 0
    else if 262144 ≤ i then moovBytesV1.getD (i - 262144) 0
    else 0,
   262192⟩

/-- An empty source: both binary-tier windows are empty, so the binary tier
reports not-found. -/
def emptyFile : ByteSrc := ofList []

/-! ## Helper lemmas -/

/-- The rational branch of `jsDiv` is ordinary exact division. -/
theorem jsDiv_eq_div (a b : Nat) (h : b ≠ 0) :
    jsDiv a b = JsVal.num ((a : ℚ) / (b : ℚ)) := by
  simp [jsDiv, h, Rat.mkRat_eq_div]

/-- The inner moov scan of the v3.2 parser performs at most `fuel` further
header reads: its attempt counter is a hard bound. -/
theorem moovScan_reads_le (file : ByteSrc) (moovEnd : Nat) :
    ∀ fuel subOffset reads, (MP4A.moovScan file moovEnd fuel subOffset reads).2 ≤ reads + fuel := by
  intro fuel
  induction fuel with
  | zero => intro subOffset reads; simp [MP4A.moovScan]
  | succ n ih =>
    intro subOffset reads
    rw [MP4A.moovScan]
    dsimp only
    repeat' split
    all_goals (try simp)
    all_goals exact le_trans (ih _ _) (by omega)

/-- The outer scan of the v3.2 parser performs at most `fuel` outer header
reads and at most 50 inner header reads beyond the running counts. -/
theorem boxScan_reads_le (file : ByteSrc) :
    ∀ fuel offset oReads iReads,
      (MP4A.boxScan file fuel offset oReads iReads).2.1 ≤ oReads + fuel ∧
      (MP4A.boxScan file fuel offset oReads iReads).2.2 ≤ iReads + 50 := by
  intro fuel
  induction fuel with
  | zero => intro offset oReads iReads; simp [MP4A.boxScan]
  | succ n ih =>
    intro offset oReads iReads
    rw [MP4A.boxScan]
    dsimp only
    split
    case isFalse => simp
    case isTrue =>
      split
      case isTrue => simp
      case isFalse =>
        split
        case h_1 => simp
        case h_2 boxSize headerSize hsized =>
          split
          case isTrue =>
            split
            case h_1 x v iReads1 hms =>
              have h := moovScan_reads_le file (offset + boxSize) 50 (offset + headerSize) iReads
              rw [hms] at h
              constructor <;> (simp; try omega)
            case h_2 x iReads1 hms =>
              have h := moovScan_reads_le file (offset + boxSize) 50 (offset + headerSize) iReads
              rw [hms] at h
              constructor <;> (simp; try omega)
          case isFalse =>
            split
            case isTrue => simp
            case isFalse =>
              exact ⟨le_trans (ih _ _ _).1 (by omega), le_trans (ih _ _ _).2 (by omega)⟩

/-- A moov scan whose range is already exhausted performs no reads and finds
nothing, for any remaining fuel. -/
theorem moovScan_stopped (file : ByteSrc) (moovEnd : Nat) (fuel subOffset reads : Nat)
    (h : ¬ subOffset < moovEnd) :
    MP4A.moovScan file moovEnd fuel subOffset reads = (none, reads) := by
  cases fuel with
  | zero => rfl
  | succ n => rw [MP4A.moovScan]; simp [h]

/-! ## Claims -/

/-- C1: a file with a version-0 whole-movie header (mvhd, timescale 600 read
at payload offset 12, 4-byte duration 18000 read at payload offset 16) at
the start of the file, wrapped in a moov box with no nested track data, is
resolved by the binary tier to exactly 18000 / 600 = 30 seconds, by the
v3.2 parser and by the App.tsx parser variant alike; the strategy returns
the value with binary provenance, never consulting the probe, whatever the
probe would report. -/
theorem c1_binary_scenario :
    jsDiv 18000 600 = JsVal.num 30 ∧
    MP4A.parse file1 = some (JsVal.num 30) ∧
    MP4C.getMp4DurationInstantly file1 = some (JsVal.num 30) ∧
    VP1.getVideoDuration MP4A.parse file1 ProbeSignal.err
      = some (JsVal.num 30, Source.binary) ∧
    VP1.getVideoDuration MP4A.parse file1 (ProbeSignal.meta (JsVal.num 99) none)
      = some (JsVal.num 30, Source.binary) ∧
    VP2.getVideoDuration MP4A.parse file1 ProbeSignal.err
      = some (JsVal.num 30, Source.binary) := by
  refine ⟨by decide, by decide, by decide, by decide, by decide, by decide⟩

/-- C2: the precision parser scans the first 256 KiB window first and
consults the 512 KiB end window only when the start scan returns null: a
start scan that finds a header determines the result outright.  On the
concrete 262192-byte file whose moov (version-1, timescale 1000, duration
45000) starts at offset 262144, the start-window scan reports not-found and
the end-window scan succeeds, giving 45 seconds. -/
theorem c2_dual_window :
    (∀ (file : ByteSrc) (r : Nat × Nat),
        MP4B.startScan file = Except.ok (some r) →
        MP4B.getMp4DurationInstantly file = some (jsDiv r.1 r.2)) ∧
    MP4B.startScan bigFile = Except.ok none ∧
    MP4B.endScan bigFile = Except.ok (some (45000, 1000)) ∧
    MP4B.getMp4DurationInstantly bigFile = some (JsVal.num 45) := by
  refine ⟨?_, rfl, rfl, by decide⟩
  intro file r h
  unfold MP4B.getMp4DurationInstantly
  rw [h]

/-- C2 witness: the start-window hypothesis of `c2_dual_window` discharged
on the concrete `file1`, whose start scan finds (18000, 600). -/
theorem c2_dual_window_witness :
    MP4B.getMp4DurationInstantly file1 = some (jsDiv 18000 600) :=
  c2_dual_window.1 file1 (18000, 600) rfl

/-- C3: the claim that a found duration header with timescale 0 is never
accepted by the binary tier fails in the precision parser: its mvhd backup
path records the pair without any timescale check, `getMp4DurationInstantly`
divides by the zero timescale (JavaScript: 5 / 0 = Infinity), and the
strategy's `duration > 0` guard passes for Infinity, so the binary tier
returns Infinity instead of falling through to not-found. -/
theorem c3_zero_timescale_accepted :
    MP4B.getMp4DurationInstantly zeroTsFile = some JsVal.inf ∧
    jsDiv 5 0 = JsVal.inf ∧
    JsVal.gtZero JsVal.inf = true ∧
    VP1.getVideoDuration MP4B.getMp4DurationInstantly zeroTsFile ProbeSignal.err
      = some (JsVal.inf, Source.binary) := by
  refine ⟨by decide, by decide, by decide, by decide⟩

/-- C4 counterexample: `sizeZeroMoovFile` and `file1` hold identical bytes
from offset 8 on (a valid mvhd with timescale 600 and duration 18000
occupying the rest of the file) and differ only in the moov's declared size
field (0 versus 36).  Were a declared size of 0 interpreted as "payload
extends to the end of the containing range" with traversal continuing into
the box's contents, the parser would find the mvhd exactly as it does on
`file1`; instead the v3.2 parser stops at the size-0 box and fails. -/
theorem c4_counterexample :
    (∀ i : Fin 36, 8 ≤ (i : Nat) → sizeZeroMoovFile.data i = file1.data i) ∧
    sizeZeroMoovFile.size = file1.size ∧
    MP4A.parse file1 = some (JsVal.num 30) ∧
    MP4A.parse sizeZeroMoovFile = none := by
  refine ⟨by decide, by decide, by decide, by decide⟩

/-- C4 amended: a box whose declared size field is 0 terminates the current
traversal level immediately: the v3.2 parser treats it as the last box of
the level and never considers its contents (a moov declaring size 0 gets the
empty scan range [offset + 8, offset + 0) and its children are never read,
and any other box type breaks the loop), performing exactly one further
header read and no inner reads. -/
theorem c4_size_zero_stops (file : ByteSrc) (fuel offset oReads iReads : Nat)
    (h1 : offset < file.size)
    (h2 : 8 ≤ (file.read offset 8).size)
    (h3 : (file.read offset 8).u32v 0 = 0) :
    MP4A.boxScan file (fuel + 1) offset oReads iReads = (none, oReads + 1, iReads) := by
  rw [MP4A.boxScan]
  dsimp only
  rw [if_pos h1, if_neg (by omega), h3]
  simp only [if_neg (by omega : (0 : Nat) ≠ 1)]
  split
  case isTrue =>
    rw [moovScan_stopped file (offset + 0) 50 (offset + 8) iReads (by omega)]
  case isFalse => simp

/-- C4 amended witness: `c4_size_zero_stops` applied to the concrete
size-0-moov file (here `boxScan file 100 0 0 0` is the full parser run). -/
theorem c4_size_zero_stops_witness :
    MP4A.getMp4DurationInstantly sizeZeroMoovFile = (none, 1, 0) :=
  c4_size_zero_stops sizeZeroMoovFile 99 0 0 0 (by decide) (by decide) (by decide)

/-- C5: for every input — including crafted containers whose size fields
point backward, repeat or lie — the v3.2 traversal performs at most 100
outer box-header reads and at most 50 inner (moov-subtree) header reads,
the attempt ceilings configured in the source; the embedding is a total
function, so the scan always terminates. -/
theorem c5_attempt_bounds :
    ∀ file : ByteSrc,
      (MP4A.getMp4DurationInstantly file).2.1 ≤ 100 ∧
      (MP4A.getMp4DurationInstantly file).2.2 ≤ 50 := by
  intro file
  have h := boxScan_reads_le file 100 0 0 0
  exact ⟨by simpa using h.1, by simpa using h.2⟩

/-- C5 witness: the bound evaluated on the concrete `file1`. -/
theorem c5_attempt_bounds_witness :
    (MP4A.getMp4DurationInstantly file1).2.1 ≤ 100 ∧
    (MP4A.getMp4DurationInstantly file1).2.2 ≤ 50 :=
  c5_attempt_bounds file1

/-- C6 counterexample: a post-seek duration of 0 with initial duration 10 is
finite (neither Infinity nor NaN) and differs from the initial value, yet the
probe tier of src/unnamed/part_002 does not return it: the seeked handler
requires `finalDuration > 0`, nothing settles, and the timeout path rejects,
so the tier produces no value at all rather than the post-seek value. -/
theorem c6_counterexample :
    VP2.probeTier (ProbeSignal.meta (JsVal.num 10) (some (JsVal.num 0, JsVal.num 0))) = none ∧
    JsVal.num 0 ≠ JsVal.inf ∧
    JsVal.num 0 ≠ JsVal.nan ∧
    JsVal.num 0 ≠ JsVal.num 10 := by
  refine ⟨by decide, by decide, by decide, by decide⟩

/-- C6 amended: after the probe's readiness signal, the strategy seeks to
the reported end and re-reads; a post-seek duration that is finite and
strictly positive (in particular one that differs from the initial value,
such as 9.98 against an initial 10) is the value returned, whatever the
initial report; a post-seek value of 0 is not accepted and the tier falls
to its timeout path.  On the concrete scenario — binary tier not-found on
the empty file, initial probe duration 10, post-seek duration
9.98 = 499/50 — the strategy returns 9.98 with probe provenance. -/
theorem c6_postseek_amended :
    (∀ (d0 c1 : JsVal) (q : ℚ), 0 < q →
        VP2.probeTier (ProbeSignal.meta d0 (some (JsVal.num q, c1))) = some (JsVal.num q)) ∧
    VP2.getVideoDuration MP4B.getMp4DurationInstantly emptyFile
        (ProbeSignal.meta (JsVal.num 10) (some (JsVal.num (mkRat 499 50), JsVal.num (mkRat 499 50))))
      = some (JsVal.num (mkRat 499 50), Source.probe) := by
  constructor
  · intro d0 c1 q hq
    unfold VP2.probeTier
    simp [JsVal.gtZero, hq]
  · decide

/-- C6 amended witness: the positivity hypothesis discharged at
q = 499/50 = 9.98. -/
theorem c6_postseek_amended_witness :
    VP2.probeTier (ProbeSignal.meta (JsVal.num 10) (some (JsVal.num (mkRat 499 50), JsVal.num 0)))
      = some (JsVal.num (mkRat 499 50)) :=
  c6_postseek_amended.1 (JsVal.num 10) (JsVal.num 0) (mkRat 499 50) (by decide)

/-- C7: the claim that every exit path of the probe tier releases its
resources exactly once fails in src/unnamed/part_002: the error handler and
the timeout's failure branch call the promise's plain `reject` without
running `cleanup()`, so on those exits the cleanup count stays 0 (object
URL never revoked, element never detached), while the success path does
release exactly once through the guarded `safeResolve`. -/
theorem c7_missing_cleanup :
    VP2.run [PEvent.error] = ⟨false, 0, some none⟩ ∧
    VP2.run [PEvent.loadedmetadata (JsVal.num 10), PEvent.timeout (JsVal.num 0)]
      = ⟨false, 0, some none⟩ ∧
    VP2.run [PEvent.loadedmetadata (JsVal.num 10),
        PEvent.seeked (JsVal.num (mkRat 499 50)) (JsVal.num (mkRat 499 50)),
        PEvent.timeout (JsVal.num (mkRat 499 50))]
      = ⟨true, 1, some (some (JsVal.num (mkRat 499 50)))⟩ := by
  refine ⟨by decide, by decide, by decide⟩

/-- C8 counterexample: a remote response whose text is non-numeric
(`Number(...)` gives NaN, modelled `Except.ok none`) leaves the item
Completed with duration 0 — not Error as the claim states. -/
theorem c8_counterexample :
    AppMain.aiFallback (Except.ok none) = (AppMain.Status.completed, 0) ∧
    AppMain.Status.completed ≠ AppMain.Status.error := by
  refine ⟨by decide, by decide⟩

/-- C8 amended: the remote call is made once with no retry path (the
embedding consumes a single response); a non-numeric or absent response
marks the item Completed with duration recorded as 0, a numeric response
marks it Completed with that number, and only a thrown remote-call error
marks the item Error. -/
theorem c8_ai_outcome_amended :
    AppMain.aiFallback (Except.ok none) = (AppMain.Status.completed, 0) ∧
    AppMain.aiFallback (Except.error ()) = (AppMain.Status.error, 0) ∧
    (∀ q : ℚ, AppMain.aiFallback (Except.ok (some q)) = (AppMain.Status.completed, q)) := by
  refine ⟨by decide, by decide, fun q => rfl⟩

/-- C9: at most one resolution is in flight per item id: a request for an id
already in the in-flight set is a no-op (no dispatch, set unchanged), and in
particular a second request issued right after a first one dispatches is a
no-op until the id is released. -/
theorem c9_inflight_guard :
    (∀ (s : List String) (id : String), id ∈ s →
        AppMain.processVideoGuard s id = (false, s)) ∧
    (∀ (s : List String) (id : String), id ∉ s →
        AppMain.processVideoGuard s id = (true, id :: s) ∧
        AppMain.processVideoGuard (id :: s) id = (false, id :: s)) := by
  constructor
  · intro s id h
    simp [AppMain.processVideoGuard, h]
  · intro s id h
    constructor
    · simp [AppMain.processVideoGuard, h]
    · simp [AppMain.processVideoGuard]

/-- C9 witness: the membership hypothesis discharged on a concrete set. -/
theorem c9_inflight_guard_witness :
    AppMain.processVideoGuard [String.mk ['a']] (String.mk ['a'])
      = (false, [String.mk ['a']]) :=
  c9_inflight_guard.1 [String.mk ['a']] (String.mk ['a']) (by simp)

/-- C10: the binary tier only ever yields results passing the strategy's
`> 0` check: in both strategy variants, a result with binary provenance
satisfies `gtZero`.  In particular, a well-formed mvhd with timescale 600
but 0 duration ticks — valid under the spec's `timescale > 0` condition —
parses to 0, is discarded by the strategy, and the file falls through to
the probe tier. -/
theorem c10_positive_binary :
    (∀ (mp4 : ByteSrc → Option JsVal) (file : ByteSrc) (sig : ProbeSignal) (d : JsVal),
        VP1.getVideoDuration mp4 file sig = some (d, Source.binary) → d.gtZero = true) ∧
    (∀ (mp4 : ByteSrc → Option JsVal) (file : ByteSrc) (sig : ProbeSignal) (d : JsVal),
        VP2.getVideoDuration mp4 file sig = some (d, Source.binary) → d.gtZero = true) ∧
    MP4B.getMp4DurationInstantly zeroTickFile = some (JsVal.num 0) ∧
    VP1.getVideoDuration MP4B.getMp4DurationInstantly zeroTickFile
        (ProbeSignal.meta (JsVal.num 12) none)
      = some (JsVal.num 12, Source.probe) := by
  refine ⟨?_, ?_, by decide, by decide⟩
  · intro mp4 file sig d h
    unfold VP1.getVideoDuration at h
    cases hm : mp4 file with
    | some v =>
      rw [hm] at h
      by_cases hv : v.gtZero
      · simp [hv] at h
        exact h ▸ hv
      · simp [hv, Option.map_eq_some'] at h
    | none =>
      rw [hm] at h
      simp [Option.map_eq_some'] at h
  · intro mp4 file sig d h
    unfold VP2.getVideoDuration at h
    cases hm : mp4 file with
    | some v =>
      rw [hm] at h
      by_cases hv : v.gtZero
      · simp [hv] at h
        exact h ▸ hv
      · simp [hv, Option.map_eq_some'] at h
    | none =>
      rw [hm] at h
      simp [Option.map_eq_some'] at h

/-- C10 witness: the binary-provenance hypothesis discharged on `file1`,
whose binary tier yields 30. -/
theorem c10_positive_binary_witness : JsVal.gtZero (JsVal.num 30) = true :=
  c10_positive_binary.1 MP4A.parse file1 ProbeSignal.err (JsVal.num 30) (by decide)

end VDC
